import Mathlib

/-!
Shallow embedding of `src/extension/icons/create_icons.py`.

The script builds three square RGBA icons (sizes 16, 48, 128) with a
vertical color gradient and the text "PA" drawn on top, saving each as a
PNG file; `main` additionally contains a fallback branch that writes
plain-text placeholder files when the PIL import inside `main` fails.

Modelling choices, each noted at its definition:
* Python `int()` on the (here always finite, exactly representable in
  rationals) float arithmetic of the gradient is modelled as truncation
  toward zero on `ℚ` (`pyInt`).
* The imaging library is modelled structurally: an image is its mode,
  its dimensions and its pixel grid; drawing primitives are pure state
  transformers on that structure. Font loading and glyph coverage are
  environment parameters (`FontEnv`, `Font`), since they depend on the
  host system, not on the script.
* The filesystem is a map from path to file content; fault injection
  (`IOEnv`) models OS-level write errors, which the script never catches.
-/

namespace CreateIcons

/-- Python `int()` conversion: truncation toward zero. -/
def pyInt (q : ℚ) : ℤ := if q < 0 then ⌈q⌉ else ⌊q⌋

/-- An RGBA color value, one integer per channel. -/
abbrev Color := ℤ × ℤ × ℤ × ℤ

/-- Red channel. -/
def Color.r (c : Color) : ℤ := c.1

/-- Green channel. -/
def Color.g (c : Color) : ℤ := c.2.1

/-- Blue channel. -/
def Color.b (c : Color) : ℤ := c.2.2.1

/-- Alpha channel. -/
def Color.a (c : Color) : ℤ := c.2.2.2

/-- An in-memory raster image: `Image.new(mode, (w, h), fillColor)` and the
drawing operations below only ever touch these fields. -/
structure PILImage where
  mode : String
  width : Nat
  height : Nat
  pix : Nat → Nat → Color

/-- `Image.new(mode, (w, h), c)`: fresh canvas, every pixel set to `c`. -/
def imageNew (mode : String) (w h : Nat) (c : Color) : PILImage :=
  ⟨mode, w, h, fun _ _ => c⟩

/-- `draw.line([(0, i), (size, i)], fill=c)` where `size` is the image
width: a horizontal run across row `i`, clipped to the canvas. -/
def drawHLine (img : PILImage) (i : Nat) (c : Color) : PILImage :=
  { img with pix := fun x y => if y = i ∧ x < img.width then c else img.pix x y }

/-- A loaded font, seen through the only two operations the script uses:
`draw.textbbox((0, 0), "PA", font)` — the four bbox coordinates — and the
glyph coverage mask of that same text placed at the origin, which
`draw.text` shifts to the requested position. -/
structure Font where
  x0 : ℤ
  y0 : ℤ
  x1 : ℤ
  y1 : ℤ
  coverage : ℤ → ℤ → Bool

/-- The host environment for fonts: `ImageFont.truetype(path, n)` may
fail (modelled as `none`), `ImageFont.load_default()` always succeeds. -/
structure FontEnv where
  truetype : String → Nat → Option Font
  defaultFont : Font

/-- The hard-coded font path in `create_icon`. -/
def dejavuPath : String := "/usr/share/fonts/truetype/dejavu/DejaVuSans-Bold.ttf"

/-- Lines 26-32: `font_size = size // 2`, then
`try: font = ImageFont.truetype(path, font_size) except: font = ImageFont.load_default()`.
The bare `except:` turns any load failure into the default font. -/
def loadFont (env : FontEnv) (size : Nat) : Font :=
  match env.truetype dejavuPath (size / 2) with
  | some f => f
  | none => env.defaultFont

/-- Lines 17-22: the per-row gradient color
`(int(102 + (118 - 102) * i / size), int(126 + (75 - 126) * i / size),
int(234 + (162 - 234) * i / size), 255)`, with the float arithmetic
modelled exactly on `ℚ`. -/
def gradColor (size i : Nat) : Color :=
  (pyInt (102 + (118 - 102) * (i : ℚ) / (size : ℚ)),
   pyInt (126 + (75 - 126) * (i : ℚ) / (size : ℚ)),
   pyInt (234 + (162 - 234) * (i : ℚ) / (size : ℚ)),
   255)

/-- Lines 16-23: `for i in range(size): draw.line([(0, i), (size, i)], fill=color)`. -/
def gradientFill (img : PILImage) (size : Nat) : PILImage :=
  (List.range size).foldl (fun im i => drawHLine im i (gradColor size i)) img

/-- Line 37: `text_width = bbox[2] - bbox[0]`. -/
def textWidth (f : Font) : ℤ := f.x1 - f.x0

/-- Line 38: `text_height = bbox[3] - bbox[1]`. -/
def textHeight (f : Font) : ℤ := f.y1 - f.y0

/-- Lines 39-40: `x = (size - text_width) // 2; y = (size - text_height) // 2`.
Python `//` on ints is floor division, `Int.fdiv`. -/
def textOrigin (size : Nat) (f : Font) : ℤ × ℤ :=
  (((size : ℤ) - textWidth f).fdiv 2, ((size : ℤ) - textHeight f).fdiv 2)

/-- Line 42: `draw.text((x, y), text, fill=..., font=font)`: pixels covered
by the glyph mask (shifted to the draw origin) take the fill color. -/
def drawText (img : PILImage) (pos : ℤ × ℤ) (fill : Color) (f : Font) : PILImage :=
  { img with pix := fun x y =>
      if f.coverage ((x : ℤ) - pos.1) ((y : ℤ) - pos.2) then fill else img.pix x y }

/-- The image `create_icon(size, filename)` builds before saving, with the
font already resolved: transparent RGBA canvas, gradient rows, then the
text at the centered origin. -/
def buildIcon (font : Font) (size : Nat) : PILImage :=
  drawText (gradientFill (imageNew "RGBA" size size (0, 0, 0, 0)) size)
    (textOrigin size font) (255, 255, 255, 255) font

/-- The image `create_icon` builds, font resolution (lines 26-32) included. -/
def createIconImage (env : FontEnv) (size : Nat) : PILImage :=
  buildIcon (loadFont env size) size

/-- A file on disk: a serialized PNG image or plain text. -/
inductive FileContent where
  | png (img : PILImage)
  | text (s : String)

/-- The filesystem: path to content, `none` when no file exists. -/
def FS := String → Option FileContent

/-- Writing a file creates it or overwrites whatever was there. -/
def writeFS (fs : FS) (name : String) (c : FileContent) : FS :=
  fun n => if n = name then some c else fs n

/-- OS-level write failures (never caught by the script). -/
inductive IOErr where
  | permissionDenied
  | diskFull
  | invalidPath
deriving DecidableEq

/-- Fault injection for the OS write layer: `failAt p = some e` means any
attempt to write path `p` raises `e`. -/
structure IOEnv where
  failAt : String → Option IOErr

/-- One file write (`img.save(filename, 'PNG')` or `open(filename, 'w')`
followed by `f.write(...)`): raises the injected fault or commits. -/
def saveFile (io : IOEnv) (fs : FS) (name : String) (c : FileContent) :
    Except IOErr FS :=
  match io.failAt name with
  | some e => Except.error e
  | none => Except.ok (writeFS fs name c)

/-- `create_icon(size, filename)` (lines 10-47): build the image, save it,
print the confirmation line. Uncaught save errors propagate. -/
def createIcon (io : IOEnv) (env : FontEnv) (size : Nat) (filename : String)
    (fs : FS) : Except IOErr (FS × String) :=
  match saveFile io fs filename (FileContent.png (createIconImage env size)) with
  | Except.error e => Except.error e
  | Except.ok fs2 =>
      Except.ok (fs2,
        "Created " ++ filename ++ " (" ++ toString size ++ "x" ++ toString size ++ ")")

/-- The three compiled-in icon targets, in source order. -/
def iconSpecs : List (Nat × String) :=
  [(16, "icon16.png"), (48, "icon48.png"), (128, "icon128.png")]

/-- Lines 62-64 of `main`: `create_icon(16, 'icon16.png')`,
`create_icon(48, 'icon48.png')`, `create_icon(128, 'icon128.png')`, in that
order; the result carries the final filesystem and the printed lines. -/
def generateIcons (io : IOEnv) (env : FontEnv) (fs : FS) :
    Except IOErr (FS × List String) :=
  match createIcon io env 16 "icon16.png" fs with
  | Except.error e => Except.error e
  | Except.ok (fs1, s1) =>
    match createIcon io env 48 "icon48.png" fs1 with
    | Except.error e => Except.error e
    | Except.ok (fs2, s2) =>
      match createIcon io env 128 "icon128.png" fs2 with
      | Except.error e => Except.error e
      | Except.ok (fs3, s3) => Except.ok (fs3, [s1, s2, s3])

/-- The filesystem after a fault-free run of the three icon writes, in
source order: icon16.png, then icon48.png, then icon128.png. -/
def iconsOutFS (env : FontEnv) (fs : FS) : FS :=
  writeFS (writeFS (writeFS fs "icon16.png"
      (FileContent.png (createIconImage env 16))) "icon48.png"
      (FileContent.png (createIconImage env 48))) "icon128.png"
      (FileContent.png (createIconImage env 128))

/-- The three confirmation lines a fault-free run prints, in order. -/
def iconsLog : List String :=
  ["Created " ++ "icon16.png" ++ " (" ++ toString (16 : Nat) ++ "x"
     ++ toString (16 : Nat) ++ ")",
   "Created " ++ "icon48.png" ++ " (" ++ toString (48 : Nat) ++ "x"
     ++ toString (48 : Nat) ++ ")",
   "Created " ++ "icon128.png" ++ " (" ++ toString (128 : Nat) ++ "x"
     ++ toString (128 : Nat) ++ ")"]

/-- Line 58: the fallback file body, the literal text Placeholder icon NxN
with N the edge length, built by the f-string on that line. -/
def placeholderText (size : Nat) : String :=
  "Placeholder icon " ++ toString size ++ "x" ++ toString size

/-- Lines 55-59 of `main`: the ImportError branch writes the three
placeholder text files (uncaught write errors propagate here too). -/
def writePlaceholders (io : IOEnv) (fs : FS) : Except IOErr FS :=
  match saveFile io fs "icon16.png" (FileContent.text (placeholderText 16)) with
  | Except.error e => Except.error e
  | Except.ok fs1 =>
    match saveFile io fs1 "icon48.png" (FileContent.text (placeholderText 48)) with
    | Except.error e => Except.error e
    | Except.ok fs2 =>
      match saveFile io fs2 "icon128.png" (FileContent.text (placeholderText 128)) with
      | Except.error e => Except.error e
      | Except.ok fs3 => Except.ok fs3

/-- The body of `main()` (lines 49-64): `try: from PIL import ...` — the
flag `pilOk` tells whether that inner import succeeds — then either the
placeholder loop or the three `create_icon` calls. -/
def mainBody (pilOk : Bool) (io : IOEnv) (env : FontEnv) (fs : FS) :
    Except IOErr (FS × List String) :=
  if pilOk then
    generateIcons io env fs
  else
    match writePlaceholders io fs with
    | Except.error e => Except.error e
    | Except.ok fs1 =>
        Except.ok (fs1,
          ["PIL/Pillow not available. Creating simple text files as placeholders."])

/-- Result of running the script as a process. -/
inductive RunResult where
  | ok (fs : FS) (log : List String)
  | uncaught (e : IOErr)
  | importError

/-- Running `python create_icons.py` with PIL present or absent. The
interpreter executes the module top level first: line 7,
`from PIL import Image, ImageDraw, ImageFont`, is NOT inside any
`try`, so when PIL is unavailable it raises ImportError before `main()`
is ever entered; only when it succeeds does `main()` run, and then the
guarded import inside `main` (line 52) necessarily succeeds as well. -/
def runScript (pilAvailable : Bool) (io : IOEnv) (env : FontEnv) (fs : FS) :
    RunResult :=
  if pilAvailable then
    match mainBody true io env fs with
    | Except.ok (fs1, log) => RunResult.ok fs1 log
    | Except.error e => RunResult.uncaught e
  else
    RunResult.importError

/-! Sample inputs used by the closed witness statements. -/

/-- A small font whose text box fits inside every icon. -/
def sampleFont : Font := ⟨0, 0, 10, 12, fun _ _ => false⟩

/-- A host with no usable truetype font: loading always fails, the default
face is `sampleFont`. -/
def sampleEnv : FontEnv := ⟨fun _ _ => none, sampleFont⟩

/-- A font whose measured text is wider and taller than a 16-pixel canvas. -/
def wideFont : Font := ⟨0, 0, 20, 24, fun _ _ => false⟩

/-- An empty filesystem. -/
def emptyFS : FS := fun _ => none

/-- A write layer with no injected faults. -/
def noFault : IOEnv := ⟨fun _ => none⟩

/-- A write layer where writing icon16.png is denied. -/
def denyIcon16 : IOEnv :=
  ⟨fun n => if n = "icon16.png" then some IOErr.permissionDenied else none⟩

/-! Arithmetic facts about the gradient computation. -/

/-- On nonnegative inputs, Python `int()` agrees with the floor. -/
lemma pyInt_eq_floor (q : ℚ) (h : 0 ≤ q) : pyInt q = ⌊q⌋ := by
  rw [pyInt, if_neg (not_lt.2 h)]

/-- A nonnegative affine-over-division expression, converted from the exact
rational form to a single integer Euclidean division. -/
lemma pyInt_linear (a b : ℤ) (N i : ℕ) (hN : 0 < N)
    (h : 0 ≤ (a : ℚ) + (b : ℚ) * (i : ℚ) / (N : ℚ)) :
    pyInt ((a : ℚ) + (b : ℚ) * (i : ℚ) / (N : ℚ)) = (a * N + b * i) / (N : ℤ) := by
  rw [pyInt_eq_floor _ h]
  have hQ : ((N : ℚ)) ≠ 0 := by positivity
  have hrw : (a : ℚ) + (b : ℚ) * (i : ℚ) / (N : ℚ)
      = ((a * (N : ℤ) + b * (i : ℕ) : ℤ) : ℚ) / ((N : ℕ) : ℚ) := by
    push_cast
    field_simp
  rw [hrw, Rat.floor_intCast_div_natCast]

/-- Nonnegativity of a gradient channel with nonpositive slope, as long as
the row index stays within the image. -/
lemma grad_nonneg_of_nonpos (a b : ℤ) (N i : ℕ) (hN : 0 < N) (hi : i ≤ N)
    (hb : b ≤ 0) (hab : 0 ≤ a + b) :
    0 ≤ (a : ℚ) + (b : ℚ) * (i : ℚ) / (N : ℚ) := by
  have hN0 : (0 : ℚ) < (N : ℚ) := by exact_mod_cast hN
  have ht1 : (i : ℚ) / (N : ℚ) ≤ 1 := by
    rw [div_le_one hN0]
    exact_mod_cast hi
  have ht0 : (0 : ℚ) ≤ (i : ℚ) / (N : ℚ) := by positivity
  have hbQ : ((b : ℚ)) ≤ 0 := by exact_mod_cast hb
  have habQ : (0 : ℚ) ≤ (a : ℚ) + (b : ℚ) := by exact_mod_cast hab
  have hmul : (b : ℚ) ≤ (b : ℚ) * ((i : ℚ) / (N : ℚ)) := by
    nlinarith
  rw [mul_div_assoc]
  linarith

/-- Lower bound on an Euclidean division by a positive natural. -/
lemma le_ediv_of_mul_le (q a : ℤ) (N : ℕ) (hN : 0 < N) (h : q * N ≤ a) :
    q ≤ a / (N : ℤ) :=
  (Int.le_ediv_iff_mul_le (by exact_mod_cast hN)).2 h

/-- Upper bound on an Euclidean division by a positive natural. -/
lemma ediv_le_of_lt_mul (q a : ℤ) (N : ℕ) (hN : 0 < N) (h : a < (q + 1) * N) :
    a / (N : ℤ) ≤ q := by
  have := (Int.ediv_lt_iff_lt_mul (b := q + 1) (a := a)
    (c := (N : ℤ)) (by exact_mod_cast hN)).2 h
  omega

/-- The gradient color in closed integer-division form, valid for rows
inside the image (slope constants folded: 118-102 = 16, 75-126 = -51,
162-234 = -72). -/
lemma gradColor_eq (N i : ℕ) (hN : 0 < N) (hi : i ≤ N) :
    gradColor N i = ((102 * N + 16 * i) / (N : ℤ), (126 * N - 51 * i) / (N : ℤ),
      (234 * N - 72 * i) / (N : ℤ), 255) := by
  have hN0 : (0 : ℚ) < (N : ℚ) := by exact_mod_cast hN
  have hr : (102 : ℚ) + (118 - 102) * (i : ℚ) / (N : ℚ)
      = ((102 : ℤ) : ℚ) + ((16 : ℤ) : ℚ) * (i : ℚ) / (N : ℚ) := by norm_num
  have hg : (126 : ℚ) + (75 - 126) * (i : ℚ) / (N : ℚ)
      = ((126 : ℤ) : ℚ) + ((-51 : ℤ) : ℚ) * (i : ℚ) / (N : ℚ) := by norm_num
  have hb : (234 : ℚ) + (162 - 234) * (i : ℚ) / (N : ℚ)
      = ((234 : ℤ) : ℚ) + ((-72 : ℤ) : ℚ) * (i : ℚ) / (N : ℚ) := by norm_num
  have hrpos : 0 ≤ ((102 : ℤ) : ℚ) + ((16 : ℤ) : ℚ) * (i : ℚ) / (N : ℚ) := by
    positivity
  have hgpos := grad_nonneg_of_nonpos 126 (-51) N i hN hi (by norm_num) (by norm_num)
  have hbpos := grad_nonneg_of_nonpos 234 (-72) N i hN hi (by norm_num) (by norm_num)
  unfold gradColor
  rw [hr, hg, hb, pyInt_linear _ _ _ _ hN hrpos, pyInt_linear _ _ _ _ hN hgpos,
    pyInt_linear _ _ _ _ hN hbpos]
  norm_num
  exact ⟨by congr 1, by congr 1⟩

/-! Structural lemmas about the drawing pipeline. -/

/-- Folding row draws over any list leaves the image width unchanged. -/
lemma foldl_drawHLine_width (c : Nat → Color) (l : List Nat) :
    ∀ img : PILImage,
      (l.foldl (fun im i => drawHLine im i (c i)) img).width = img.width := by
  induction l with
  | nil => intro img; rfl
  | cons a t ih =>
      intro img
      rw [List.foldl_cons, ih]
      rfl

/-- Folding row draws over any list leaves the image height unchanged. -/
lemma foldl_drawHLine_height (c : Nat → Color) (l : List Nat) :
    ∀ img : PILImage,
      (l.foldl (fun im i => drawHLine im i (c i)) img).height = img.height := by
  induction l with
  | nil => intro img; rfl
  | cons a t ih =>
      intro img
      rw [List.foldl_cons, ih]
      rfl

/-- Folding row draws over any list leaves the image mode unchanged. -/
lemma foldl_drawHLine_mode (c : Nat → Color) (l : List Nat) :
    ∀ img : PILImage,
      (l.foldl (fun im i => drawHLine im i (c i)) img).mode = img.mode := by
  induction l with
  | nil => intro img; rfl
  | cons a t ih =>
      intro img
      rw [List.foldl_cons, ih]
      rfl

/-- After drawing rows 0 to n-1, every in-bounds pixel of a touched row
carries that row's color. -/
lemma foldl_drawHLine_pix (c : Nat → Color) :
    ∀ (n : ℕ) (img : PILImage) (x y : ℕ), y < n → x < img.width →
      ((List.range n).foldl (fun im i => drawHLine im i (c i)) img).pix x y
        = c y := by
  intro n
  induction n with
  | zero => intro img x y hy _; omega
  | succ n ih =>
      intro img x y hy hx
      rw [List.range_succ, List.foldl_append, List.foldl_cons, List.foldl_nil]
      have hw := foldl_drawHLine_width c (List.range n) img
      by_cases h : y = n
      · rw [drawHLine]
        simp only []
        rw [if_pos ⟨h, by rw [hw]; exact hx⟩, h]
      · have hyn : y < n := by omega
        rw [drawHLine]
        simp only []
        rw [if_neg (by tauto)]
        exact ih img x y hyn hx

/-- The gradient pass paints every in-bounds pixel with its row color. -/
lemma gradientFill_pix (size x y : ℕ) (img : PILImage) (hy : y < size)
    (hx : x < img.width) :
    (gradientFill img size).pix x y = gradColor size y :=
  foldl_drawHLine_pix (gradColor size) size img x y hy hx

/-- Dimensions and mode of the image built by `create_icon`. -/
lemma buildIcon_dims (font : Font) (size : Nat) :
    (buildIcon font size).width = size ∧ (buildIcon font size).height = size ∧
    (buildIcon font size).mode = "RGBA" := by
  unfold buildIcon drawText gradientFill
  refine ⟨?_, ?_, ?_⟩
  · exact foldl_drawHLine_width _ _ _
  · exact foldl_drawHLine_height _ _ _
  · exact foldl_drawHLine_mode _ _ _

/-- C2 counterexample: at size 16 (one of the three generated sizes) the
last gradient row is (117, 78, 166, 255); its green channel differs from 75
by 3, so the claimed tolerance of plus or minus 1 per channel fails. -/
theorem c2_endpoint_counterexample :
    gradColor 16 15 = (117, 78, 166, 255) ∧
    ¬(|(gradColor 16 15).g - 75| ≤ 1) := by
  have h : gradColor 16 15 = (117, 78, 166, 255) := by
    unfold gradColor
    norm_num [pyInt]
  refine ⟨h, ?_⟩
  rw [h]
  decide

/-- C2 (amended): for every size N with 1 ≤ N, the gradient color of row 0
is exactly (102, 126, 234, 255); and whenever 37 ≤ N — which covers the
generated sizes 48 and 128 but not 16 — the gradient color of row N-1 is
within plus or minus 1 per channel of (118, 75, 162, 255). -/
theorem c2_gradient_endpoints (N : ℕ) (hN : 1 ≤ N) :
    gradColor N 0 = (102, 126, 234, 255) ∧
    (37 ≤ N →
      |(gradColor N (N - 1)).r - 118| ≤ 1 ∧ |(gradColor N (N - 1)).g - 75| ≤ 1 ∧
      |(gradColor N (N - 1)).b - 162| ≤ 1 ∧ (gradColor N (N - 1)).a = 255) := by
  constructor
  · unfold gradColor
    norm_num [pyInt]
  · intro h37
    have hN0 : 0 < N := hN
    have h37z : (37 : ℤ) ≤ (N : ℤ) := by exact_mod_cast h37
    rw [gradColor_eq N (N - 1) hN0 (by omega)]
    have hcast : ((N - 1 : ℕ) : ℤ) = (N : ℤ) - 1 := by omega
    rw [hcast]
    have hr1 : (117 : ℤ) ≤ (102 * N + 16 * ((N : ℤ) - 1)) / (N : ℤ) :=
      le_ediv_of_mul_le _ _ N hN0 (by omega)
    have hr2 : (102 * N + 16 * ((N : ℤ) - 1)) / (N : ℤ) ≤ 117 :=
      ediv_le_of_lt_mul _ _ N hN0 (by omega)
    have hg1 : (74 : ℤ) ≤ (126 * N - 51 * ((N : ℤ) - 1)) / (N : ℤ) :=
      le_ediv_of_mul_le _ _ N hN0 (by omega)
    have hg2 : (126 * N - 51 * ((N : ℤ) - 1)) / (N : ℤ) ≤ 76 :=
      ediv_le_of_lt_mul _ _ N hN0 (by omega)
    have hb1 : (161 : ℤ) ≤ (234 * N - 72 * ((N : ℤ) - 1)) / (N : ℤ) :=
      le_ediv_of_mul_le _ _ N hN0 (by omega)
    have hb2 : (234 * N - 72 * ((N : ℤ) - 1)) / (N : ℤ) ≤ 163 :=
      ediv_le_of_lt_mul _ _ N hN0 (by omega)
    refine ⟨?_, ?_, ?_, rfl⟩
    · rw [Color.r, abs_le]
      constructor <;> · simp only []; omega
    · rw [Color.g, abs_le]
      constructor <;> · simp only []; omega
    · rw [Color.b, abs_le]
      constructor <;> · simp only []; omega

/-- C2 witness: the amended statement instantiated at N = 48. -/
theorem c2_gradient_endpoints_witness :
    gradColor 48 0 = (102, 126, 234, 255) ∧
    |(gradColor 48 47).r - 118| ≤ 1 ∧ |(gradColor 48 47).g - 75| ≤ 1 ∧
    |(gradColor 48 47).b - 162| ≤ 1 ∧ (gradColor 48 47).a = 255 :=
  ⟨(c2_gradient_endpoints 48 (by norm_num)).1,
   (c2_gradient_endpoints 48 (by norm_num)).2 (by norm_num)⟩

/-- C10: the gradient color is monotone in the row index — red
non-decreasing, green and blue non-increasing — and each channel stays in
the closed interval spanned by its start value (102, 126, 234) and end
value (118, 75, 162), for all rows inside the image. -/
theorem c10_gradient_monotone_bounded (N i j : ℕ) (hN : 1 ≤ N) (hij : i ≤ j)
    (hj : j < N) :
    ((gradColor N i).r ≤ (gradColor N j).r ∧
     (gradColor N j).g ≤ (gradColor N i).g ∧
     (gradColor N j).b ≤ (gradColor N i).b) ∧
    (102 ≤ (gradColor N i).r ∧ (gradColor N i).r ≤ 118 ∧
     75 ≤ (gradColor N i).g ∧ (gradColor N i).g ≤ 126 ∧
     162 ≤ (gradColor N i).b ∧ (gradColor N i).b ≤ 234) := by
  have hN0 : 0 < N := by omega
  have hNz : (0 : ℤ) < (N : ℤ) := by exact_mod_cast hN0
  have hiN : i ≤ N := by omega
  have hjN : j ≤ N := by omega
  have hiz : (i : ℤ) < (N : ℤ) := by exact_mod_cast (by omega : i < N)
  rw [gradColor_eq N i hN0 hiN, gradColor_eq N j hN0 hjN]
  simp only [Color.r, Color.g, Color.b]
  have hjz : (i : ℤ) ≤ (j : ℤ) := by exact_mod_cast hij
  refine ⟨⟨?_, ?_, ?_⟩, ?_, ?_, ?_, ?_, ?_, ?_⟩
  · exact Int.ediv_le_ediv hNz (by omega)
  · exact Int.ediv_le_ediv hNz (by omega)
  · exact Int.ediv_le_ediv hNz (by omega)
  · exact le_ediv_of_mul_le _ _ N hN0 (by omega)
  · exact ediv_le_of_lt_mul _ _ N hN0 (by omega)
  · exact le_ediv_of_mul_le _ _ N hN0 (by omega)
  · exact ediv_le_of_lt_mul _ _ N hN0 (by omega)
  · exact le_ediv_of_mul_le _ _ N hN0 (by omega)
  · exact ediv_le_of_lt_mul _ _ N hN0 (by omega)

/-- C10 witness: the monotonicity-and-bounds statement at N = 16, rows 3
and 10. -/
theorem c10_gradient_monotone_bounded_witness :
    ((gradColor 16 3).r ≤ (gradColor 16 10).r ∧
     (gradColor 16 10).g ≤ (gradColor 16 3).g ∧
     (gradColor 16 10).b ≤ (gradColor 16 3).b) ∧
    (102 ≤ (gradColor 16 3).r ∧ (gradColor 16 3).r ≤ 118 ∧
     75 ≤ (gradColor 16 3).g ∧ (gradColor 16 3).g ≤ 126 ∧
     162 ≤ (gradColor 16 3).b ∧ (gradColor 16 3).b ≤ 234) :=
  c10_gradient_monotone_bounded 16 3 10 (by norm_num) (by norm_num) (by norm_num)

/-- C9: although the canvas starts fully transparent, every in-bounds pixel
of the image built by `create_icon` ends fully opaque: the gradient pass
paints each row with an alpha-255 color, and the text pass only ever writes
the alpha-255 fill on top. -/
theorem c9_all_pixels_opaque (env : FontEnv) (size x y : ℕ) (_hs : 1 ≤ size)
    (hx : x < size) (hy : y < size) :
    ((createIconImage env size).pix x y).a = 255 := by
  unfold createIconImage buildIcon drawText
  simp only []
  split
  · rfl
  · rw [gradientFill_pix size x y _ hy hx]
    rfl

/-- C9 witness: the opacity statement at the no-truetype host, size 16,
pixel (0, 0). -/
theorem c9_all_pixels_opaque_witness :
    ((createIconImage sampleEnv 16).pix 0 0).a = 255 :=
  c9_all_pixels_opaque sampleEnv 16 0 0 (by norm_num) (by norm_num) (by norm_num)

/-- C3: the text draw origin is componentwise floor division,
x = (size - text width) div 2 and y = (size - text height) div 2, with no
clamping: when the measured text exceeds the canvas the corresponding
coordinate is negative. -/
theorem c3_text_origin (size : ℕ) (f : Font) (_hs : 1 ≤ size) :
    textOrigin size f
      = (((size : ℤ) - textWidth f).fdiv 2, ((size : ℤ) - textHeight f).fdiv 2) ∧
    ((size : ℤ) < textWidth f → (textOrigin size f).1 < 0) ∧
    ((size : ℤ) < textHeight f → (textOrigin size f).2 < 0) := by
  refine ⟨rfl, ?_, ?_⟩
  · intro h
    show (((size : ℤ) - textWidth f).fdiv 2) < 0
    rw [Int.fdiv_eq_ediv _ (by norm_num)]
    exact (Int.ediv_lt_iff_lt_mul (by norm_num)).2 (by omega)
  · intro h
    show (((size : ℤ) - textHeight f).fdiv 2) < 0
    rw [Int.fdiv_eq_ediv _ (by norm_num)]
    exact (Int.ediv_lt_iff_lt_mul (by norm_num)).2 (by omega)

/-- C3 witness: at size 16 with a 20 by 24 text box, both origin
coordinates are negative. -/
theorem c3_text_origin_witness :
    (textOrigin 16 wideFont).1 < 0 ∧ (textOrigin 16 wideFont).2 < 0 :=
  ⟨(c3_text_origin 16 wideFont (by norm_num)).2.1 (by decide),
   (c3_text_origin 16 wideFont (by norm_num)).2.2 (by decide)⟩

/-- C4: `create_icon` requests the DejaVuSans-Bold truetype face at
size div 2 points; if that load fails the built-in default face is
substituted without any exception, and the rest of the pipeline runs with
the substitute's metrics — if it succeeds, the loaded face is used. -/
theorem c4_font_fallback (env : FontEnv) (size : ℕ) :
    (env.truetype dejavuPath (size / 2) = none →
      createIconImage env size = buildIcon env.defaultFont size) ∧
    (∀ f, env.truetype dejavuPath (size / 2) = some f →
      createIconImage env size = buildIcon f size) := by
  constructor
  · intro h
    unfold createIconImage loadFont
    rw [h]
  · intro f h
    unfold createIconImage loadFont
    rw [h]

/-- C4 witness: on the host where every truetype load fails, the size-16
icon is built with the default face. -/
theorem c4_font_fallback_witness :
    createIconImage sampleEnv 16 = buildIcon sampleEnv.defaultFont 16 :=
  (c4_font_fallback sampleEnv 16).1 rfl

/-! Run-level lemmas: how `generateIcons` behaves with and without
injected write faults. -/

/-- A fault-free run writes the three icons and prints the three lines. -/
lemma generateIcons_ok (io : IOEnv) (env : FontEnv) (fs : FS)
    (h16 : io.failAt "icon16.png" = none) (h48 : io.failAt "icon48.png" = none)
    (h128 : io.failAt "icon128.png" = none) :
    generateIcons io env fs = Except.ok (iconsOutFS env fs, iconsLog) := by
  unfold generateIcons createIcon saveFile iconsOutFS iconsLog
  rw [h16, h48, h128]

/-- A fault on the first write aborts the run with that error. -/
lemma generateIcons_err16 (io : IOEnv) (env : FontEnv) (fs : FS) (e : IOErr)
    (h16 : io.failAt "icon16.png" = some e) :
    generateIcons io env fs = Except.error e := by
  unfold generateIcons createIcon saveFile
  rw [h16]

/-- A fault on the second write aborts the run with that error. -/
lemma generateIcons_err48 (io : IOEnv) (env : FontEnv) (fs : FS) (e : IOErr)
    (h16 : io.failAt "icon16.png" = none) (h48 : io.failAt "icon48.png" = some e) :
    generateIcons io env fs = Except.error e := by
  unfold generateIcons createIcon saveFile
  rw [h16, h48]

/-- A fault on the third write aborts the run with that error. -/
lemma generateIcons_err128 (io : IOEnv) (env : FontEnv) (fs : FS) (e : IOErr)
    (h16 : io.failAt "icon16.png" = none) (h48 : io.failAt "icon48.png" = none)
    (h128 : io.failAt "icon128.png" = some e) :
    generateIcons io env fs = Except.error e := by
  unfold generateIcons createIcon saveFile
  rw [h16, h48, h128]

/-- Inversion: a successful run means no write fault occurred, and the
output filesystem and log are the canonical ones. -/
lemma generateIcons_ok_inv (io : IOEnv) (env : FontEnv) (fs fsOut : FS)
    (log : List String) (h : generateIcons io env fs = Except.ok (fsOut, log)) :
    io.failAt "icon16.png" = none ∧ io.failAt "icon48.png" = none ∧
    io.failAt "icon128.png" = none ∧ fsOut = iconsOutFS env fs ∧ log = iconsLog := by
  cases h16 : io.failAt "icon16.png" with
  | some e =>
      rw [generateIcons_err16 io env fs e h16] at h
      exact Except.noConfusion h
  | none =>
      cases h48 : io.failAt "icon48.png" with
      | some e =>
          rw [generateIcons_err48 io env fs e h16 h48] at h
          exact Except.noConfusion h
      | none =>
          cases h128 : io.failAt "icon128.png" with
          | some e =>
              rw [generateIcons_err128 io env fs e h16 h48 h128] at h
              exact Except.noConfusion h
          | none =>
              rw [generateIcons_ok io env fs h16 h48 h128] at h
              injection h with hp
              have h5 := Prod.ext_iff.mp hp
              exact ⟨rfl, rfl, rfl, h5.1.symm, h5.2.symm⟩

/-- Looking up any of the three target names in the canonical output
filesystem yields the PNG of the corresponding generated image. -/
lemma iconsOutFS_lookup (env : FontEnv) (fs : FS) (p : Nat × String)
    (hp : p ∈ iconSpecs) :
    iconsOutFS env fs p.2 = some (FileContent.png (createIconImage env p.1)) := by
  unfold iconSpecs at hp
  simp only [List.mem_cons, List.not_mem_nil, or_false] at hp
  rcases hp with rfl | rfl | rfl
  · show iconsOutFS env fs "icon16.png" = _
    unfold iconsOutFS
    rw [writeFS, if_neg (by decide), writeFS, if_neg (by decide), writeFS,
      if_pos rfl]
  · show iconsOutFS env fs "icon48.png" = _
    unfold iconsOutFS
    rw [writeFS, if_neg (by decide), writeFS, if_pos rfl]
  · show iconsOutFS env fs "icon128.png" = _
    unfold iconsOutFS
    rw [writeFS, if_pos rfl]

/-- Rerunning the three writes over the canonical output changes nothing:
each name is simply overwritten with the identical content. -/
lemma iconsOutFS_idem (env : FontEnv) (fs : FS) :
    iconsOutFS env (iconsOutFS env fs) = iconsOutFS env fs := by
  funext n
  unfold iconsOutFS writeFS
  by_cases h1 : n = "icon128.png"
  · simp [h1]
  · by_cases h2 : n = "icon48.png"
    · simp [h1, h2]
    · by_cases h3 : n = "icon16.png" <;> simp [h1, h2, h3]

/-- C1: when PIL is unavailable the run does NOT reach the text-stub
fallback. The module-level import on line 7 is unguarded, so the process
dies with an ImportError before `main()` starts: no placeholder file is
written and the error is surfaced. The guarded branch inside `main`
(lines 55-59) would indeed write the three placeholder text files, but it
is unreachable, because `main` only runs after the module-level import of
the same package has already succeeded. -/
theorem c1_fallback_unreachable (io : IOEnv) (env : FontEnv) (fs : FS) :
    runScript false io env fs = RunResult.importError ∧
    mainBody false noFault env fs
      = Except.ok (writeFS (writeFS (writeFS fs "icon16.png"
          (FileContent.text (placeholderText 16))) "icon48.png"
          (FileContent.text (placeholderText 48))) "icon128.png"
          (FileContent.text (placeholderText 128)),
        ["PIL/Pillow not available. Creating simple text files as placeholders."]) :=
  ⟨rfl, rfl⟩

/-- C7: a successful run processes the specs in the fixed order 16, 48,
128 — visible in the printed lines — and ends with each of the three
exactly-named files present, holding its generated image. -/
theorem c7_fixed_order_and_names (io : IOEnv) (env : FontEnv) (fs fsOut : FS)
    (log : List String) (h : generateIcons io env fs = Except.ok (fsOut, log)) :
    log = ["Created icon16.png (16x16)", "Created icon48.png (48x48)",
           "Created icon128.png (128x128)"] ∧
    iconSpecs = [(16, "icon16.png"), (48, "icon48.png"), (128, "icon128.png")] ∧
    (∀ p, p ∈ iconSpecs →
      fsOut p.2 = some (FileContent.png (createIconImage env p.1))) := by
  obtain ⟨h16, h48, h128, hfs, hlog⟩ := generateIcons_ok_inv io env fs fsOut log h
  refine ⟨?_, rfl, ?_⟩
  · rw [hlog]
    decide
  · intro p hp
    rw [hfs]
    exact iconsOutFS_lookup env fs p hp

/-- C7 witness: the log of a concrete fault-free run, in order. -/
theorem c7_fixed_order_and_names_witness :
    iconsLog = ["Created icon16.png (16x16)", "Created icon48.png (48x48)",
      "Created icon128.png (128x128)"] :=
  (c7_fixed_order_and_names noFault sampleEnv emptyFS
    (iconsOutFS sampleEnv emptyFS) iconsLog rfl).1

/-- C5: on a successful run each of the three output images is stored
under its spec's filename with pixel dimensions exactly size by size and
color mode RGBA. -/
theorem c5_dimensions_and_mode (io : IOEnv) (env : FontEnv) (fs fsOut : FS)
    (log : List String) (h : generateIcons io env fs = Except.ok (fsOut, log))
    (p : Nat × String) (hp : p ∈ iconSpecs) :
    fsOut p.2 = some (FileContent.png (createIconImage env p.1)) ∧
    (createIconImage env p.1).width = p.1 ∧
    (createIconImage env p.1).height = p.1 ∧
    (createIconImage env p.1).mode = "RGBA" := by
  obtain ⟨h16, h48, h128, hfs, hlog⟩ := generateIcons_ok_inv io env fs fsOut log h
  have hdims := buildIcon_dims (loadFont env p.1) p.1
  exact ⟨hfs ▸ iconsOutFS_lookup env fs p hp, hdims.1, hdims.2.1, hdims.2.2⟩

/-- C5 witness: the size-16 output of a concrete fault-free run. -/
theorem c5_dimensions_and_mode_witness :
    iconsOutFS sampleEnv emptyFS "icon16.png"
      = some (FileContent.png (createIconImage sampleEnv 16)) ∧
    (createIconImage sampleEnv 16).width = 16 ∧
    (createIconImage sampleEnv 16).height = 16 ∧
    (createIconImage sampleEnv 16).mode = "RGBA" :=
  c5_dimensions_and_mode noFault sampleEnv emptyFS (iconsOutFS sampleEnv emptyFS)
    iconsLog rfl (16, "icon16.png") (by decide)

/-- C6: generation is deterministic and repeatable. A second run over the
first run's output succeeds and reproduces the identical filesystem and
log (the writes overwrite in place), and any two successful runs with the
same environment print the same log and leave byte-identical contents at
the three target names, regardless of the initial filesystems. -/
theorem c6_deterministic_idempotent (io : IOEnv) (env : FontEnv) (fs fsOut : FS)
    (log : List String) (h : generateIcons io env fs = Except.ok (fsOut, log)) :
    generateIcons io env fsOut = Except.ok (fsOut, log) ∧
    (∀ fs2 fsOut2 log2, generateIcons io env fs2 = Except.ok (fsOut2, log2) →
      log2 = log ∧ ∀ p, p ∈ iconSpecs → fsOut2 p.2 = fsOut p.2) := by
  obtain ⟨h16, h48, h128, hfs, hlog⟩ := generateIcons_ok_inv io env fs fsOut log h
  constructor
  · rw [generateIcons_ok io env fsOut h16 h48 h128, hfs, hlog, iconsOutFS_idem]
  · intro fs2 fsOut2 log2 h2
    obtain ⟨_, _, _, hfs2, hlog2⟩ := generateIcons_ok_inv io env fs2 fsOut2 log2 h2
    refine ⟨by rw [hlog2, hlog], ?_⟩
    intro p hp
    rw [hfs2, hfs, iconsOutFS_lookup env fs2 p hp, iconsOutFS_lookup env fs p hp]

/-- C6 witness: rerunning over the output of a concrete fault-free run
reproduces it exactly. -/
theorem c6_deterministic_idempotent_witness :
    generateIcons noFault sampleEnv (iconsOutFS sampleEnv emptyFS)
      = Except.ok (iconsOutFS sampleEnv emptyFS, iconsLog) :=
  (c6_deterministic_idempotent noFault sampleEnv emptyFS
    (iconsOutFS sampleEnv emptyFS) iconsLog rfl).1

/-- C8: write failures are caught nowhere. Whichever of the three file
writes is the first to raise, its error reaches the process boundary
unchanged and the run terminates there. -/
theorem c8_write_errors_propagate (io : IOEnv) (env : FontEnv) (fs : FS)
    (e : IOErr) :
    (io.failAt "icon16.png" = some e →
      runScript true io env fs = RunResult.uncaught e) ∧
    (io.failAt "icon16.png" = none → io.failAt "icon48.png" = some e →
      runScript true io env fs = RunResult.uncaught e) ∧
    (io.failAt "icon16.png" = none → io.failAt "icon48.png" = none →
      io.failAt "icon128.png" = some e →
      runScript true io env fs = RunResult.uncaught e) := by
  refine ⟨?_, ?_, ?_⟩
  · intro h16
    unfold runScript mainBody
    rw [if_pos rfl, if_pos rfl, generateIcons_err16 io env fs e h16]
  · intro h16 h48
    unfold runScript mainBody
    rw [if_pos rfl, if_pos rfl, generateIcons_err48 io env fs e h16 h48]
  · intro h16 h48 h128
    unfold runScript mainBody
    rw [if_pos rfl, if_pos rfl, generateIcons_err128 io env fs e h16 h48 h128]

/-- C8 witness: denying the first write makes the run die with that very
error. -/
theorem c8_write_errors_propagate_witness :
    runScript true denyIcon16 sampleEnv emptyFS
      = RunResult.uncaught IOErr.permissionDenied :=
  (c8_write_errors_propagate denyIcon16 sampleEnv emptyFS
    IOErr.permissionDenied).1 (by decide)

end CreateIcons
